import Mathlib

/-!
Shallow embedding of the medicinal-plants database application
(`src/app.py`, `src/create_database.py`).

The store is a single table `plants`; a row is a `Plant` record with the
eleven text fields assigned positionally by the importer.  Field values,
CSV cells and filter inputs are modelled as `List Char`.

Query construction (`search_page` in `app.py`) builds a SQL `WHERE` clause
from up to four optional text filters, each compiled to `LIKE '%q%'`.
SQLite's default `LIKE` is modelled faithfully: `%` matches any sequence,
`_` matches any single character, and comparison of ordinary characters is
case-insensitive for the ASCII range (SQLite folds only A–Z by default).
-/

abbrev Str := List Char

/-- One row of the `plants` table: the fixed 11-column schema assigned in
`setup_database` (`app.py` lines 22–27) and `create_database`
(`create_database.py` lines 27–32). -/
structure Plant where
  Name_of_Plant : Str
  Scientific_Name : Str
  Family : Str
  Related_Database : Str
  Therapeutic_Use : Str
  Tissue_Part : Str
  Preparation_Method : Str
  NE_State_Availability : Str
  Phytochemicals : Str
  Phytochemical_Reference : Str
  Literature_Reference : Str
deriving DecidableEq

/-- A parsed CSV source file: a header row and data rows, each row a list
of cell values.  `pd.read_csv` keeps the header separate from the data. -/
structure Csv where
  header : List Str
  rows : List (List Str)
deriving DecidableEq

/-- The eleven fields of a record, in schema order. -/
def plantFields (p : Plant) : List Str :=
  [p.Name_of_Plant, p.Scientific_Name, p.Family, p.Related_Database,
   p.Therapeutic_Use, p.Tissue_Part, p.Preparation_Method,
   p.NE_State_Availability, p.Phytochemicals, p.Phytochemical_Reference,
   p.Literature_Reference]

/-- Positional assignment of one CSV data row to the 11 schema columns
(the `df.columns = [...]` rename is positional, not name-based).  A row
with a different cell count cannot be assigned. -/
def rowToPlant : List Str → Option Plant
  | [a, b, c, d, e, f, g, h, i, j, k] => some ⟨a, b, c, d, e, f, g, h, i, j, k⟩
  | _ => none

/-- Convert all data rows; fails if any row does not have 11 cells. -/
def rowsToPlants : List (List Str) → Option (List Plant)
  | [] => some []
  | r :: rs =>
    match rowToPlant r, rowsToPlants rs with
    | some p, some ps => some (p :: ps)
    | _, _ => none

/-- The import step shared by `setup_database` and `create_database`:
read the CSV, rename the columns positionally to the fixed 11-name schema
(which raises if the file does not have exactly 11 columns), and write the
result to the `plants` table.  Header names are discarded by the rename;
only the column count matters. -/
def importCsv (c : Csv) : Option (List Plant) :=
  if c.header.length = 11 then rowsToPlants c.rows else none

/-- SQLite's default ASCII case folding: only A–Z are folded. -/
def lowerChar (c : Char) : Char :=
  if 'A' ≤ c ∧ c ≤ 'Z' then Char.ofNat (c.toNat + 32) else c

/-- SQLite `LIKE` pattern matching with the default (no `ESCAPE`,
`case_sensitive_like` off): `%` matches any sequence, `_` any single
character, and other characters compare under ASCII case folding. -/
def likeMatch : List Char → List Char → Bool
  | [], s => s.isEmpty
  | p :: ps, s =>
    if p = '%' then s.tails.any (fun t => likeMatch ps t)
    else
      match s with
      | [] => false
      | c :: s' =>
        if p = '_' then likeMatch ps s'
        else lowerChar p == lowerChar c && likeMatch ps s'

/-- `LIKE '%q%'`: how `search_page` wraps every filter value. -/
def likeContains (q s : Str) : Bool :=
  likeMatch ('%' :: (q ++ ['%'])) s

/-- Case-sensitive substring occurrence (exact character equality). -/
def containsSub (q s : Str) : Bool :=
  s.tails.any (fun t => q.isPrefixOf t)

/-- Case-insensitive (ASCII folding) substring occurrence. -/
def containsCI (q s : Str) : Bool :=
  containsSub (q.map lowerChar) (s.map lowerChar)

/-- True when the string uses no `LIKE` metacharacter. -/
def noWild (q : Str) : Bool :=
  q.all (fun c => !(c = '%' || c = '_'))

/-- The four optional text inputs of the Advanced Search form
(`app.py` lines 196–200).  An empty string is a blank input; `search_page`
tests each with Python truthiness, so an empty pattern adds no clause. -/
structure Filters where
  name : Str
  use : Str
  family : Str
  phyto : Str
deriving DecidableEq

/-- The blank search form. -/
def emptyFilters : Filters := ⟨[], [], [], []⟩

/-- The `WHERE` clause built by `search_page` (lines 209–222), evaluated
on one row: `1=1`, then for each non-blank input one conjunct —
the plant-name input matches `Name_of_Plant LIKE '%q%' OR Scientific_Name
LIKE '%q%'`, the other three each constrain a single column. -/
def matchesRow (f : Filters) (r : Plant) : Bool :=
  (f.name.isEmpty || (likeContains f.name r.Name_of_Plant ||
                      likeContains f.name r.Scientific_Name)) &&
  (f.use.isEmpty || likeContains f.use r.Therapeutic_Use) &&
  (f.family.isEmpty || likeContains f.family r.Family) &&
  (f.phyto.isEmpty || likeContains f.phyto r.Phytochemicals)

/-- Result set of the dynamically built `SELECT * FROM plants WHERE ...`
query of `search_page`, given the table contents. -/
def searchResults (f : Filters) (st : List Plant) : List Plant :=
  st.filter (fun r => matchesRow f r)

/-- `SELECT DISTINCT Family FROM plants ORDER BY Family` (`app.py`
line 166): the distinct `Family` values in ascending `BINARY`-collation
order (bytewise on UTF-8, i.e. lexicographic by code point). -/
def listDistinctFamilies (st : List Plant) : List Str :=
  ((st.map Plant.Family).dedup).insertionSort (· ≤ ·)

/-- `plants_df[plants_df['Family'] == family]` (`app.py` line 171):
exact whole-string equality on the `Family` field. -/
def findByExactFamily (v : Str) (st : List Plant) : List Plant :=
  st.filter (fun r => r.Family == v)

/-- Process state: whether the source CSV exists (and its parse), whether
the `plants` table has been materialized (and its rows), and whether the
Streamlit flow was halted by `st.stop()`. -/
structure SysState where
  csv : Option Csv
  db : Option (List Plant)
  halted : Bool
deriving DecidableEq

/-- The error message SQLite raises when a query names a table that was
never created: querying before setup fails with this, it does not return
an empty result set. -/
def noTableMsg : String := "no such table: plants"

/-- `setup_database` (`app.py` lines 10–36): if the database already
exists, do nothing; otherwise, if the CSV is missing, report an error and
`st.stop()`; otherwise import the CSV into a fresh `plants` table
(`if_exists='replace'`).  An import failure also reports and stops. -/
def setup_database (s : SysState) : SysState :=
  if s.db.isSome then s
  else
    match s.csv with
    | none => { s with halted := true }
    | some c =>
      match importCsv c with
      | some ps => { s with db := some ps }
      | none => { s with halted := true }

/-- `create_database` (`create_database.py`): if the CSV is missing,
print an error and return without touching the store; if reading or the
positional rename fails, the store is likewise left as it was; otherwise
write the imported rows with `if_exists='replace'`, so the table ends up
holding exactly the imported rows regardless of prior contents. -/
def create_database (csv : Option Csv) (db : Option (List Plant)) :
    Option (List Plant) :=
  match csv with
  | none => db
  | some c =>
    match importCsv c with
    | none => db
    | some ps => some ps

/-- `browse_page` (`app.py` lines 161–186): connect, then run the two
`SELECT`s.  If the `plants` table does not exist the read raises (caught
and shown as an error); the state is returned unchanged — the page only
issues `SELECT`s.  On success it yields the distinct families and the
full table for the per-family exact filtering. -/
def browseRun (s : SysState) :
    SysState × Except String (List Str × List Plant) :=
  match s.db with
  | none => (s, Except.error noTableMsg)
  | some st => (s, Except.ok (listDistinctFamilies st, st))

/-- `search_page` submit handler (`app.py` lines 204–231): connect, build
the filter query, and read.  A missing `plants` table raises (shown as
"Search error"); the state is returned unchanged — the page only issues a
`SELECT`. -/
def searchRun (f : Filters) (s : SysState) :
    SysState × Except String (List Plant) :=
  match s.db with
  | none => (s, Except.error noTableMsg)
  | some st => (s, Except.ok (searchResults f st))

/-- A sample record used to instantiate theorems at concrete inputs. -/
def roseRecord : Plant :=
  ⟨"Rose".toList, "Rosa".toList, "Rosaceae".toList, [], "cold".toList,
   [], [], [], "citral".toList, [], []⟩

/- ### Helper lemmas on the `LIKE` matcher -/

lemma tails_any_isEmpty (s : List Char) :
    s.tails.any (fun t => t.isEmpty) = true := by
  induction s with
  | nil => rfl
  | cons c s ih => simp [List.tails_cons, ih]

lemma likeMatch_plain_pct :
    ∀ q : Str, noWild q = true → ∀ t : Str,
      likeMatch (q ++ ['%']) t = (q.map lowerChar).isPrefixOf (t.map lowerChar) := by
  intro q
  induction q with
  | nil =>
    intro _ t
    have h1 : likeMatch ([] ++ ['%']) t = t.tails.any (fun u => u.isEmpty) := by
      simp [likeMatch]
    rw [h1, tails_any_isEmpty]
    cases t <;> rfl
  | cons a q ih =>
    intro hq t
    have h : (a ≠ '%' ∧ a ≠ '_') ∧ noWild q = true := by
      simpa [noWild] using hq
    obtain ⟨⟨ha1, ha2⟩, hq'⟩ := h
    cases t with
    | nil => simp [likeMatch, ha1, List.isPrefixOf]
    | cons c t' =>
      simp [likeMatch, ha1, ha2, ih hq' t', List.isPrefixOf]

/-- For a pattern free of `LIKE` metacharacters, `LIKE '%q%'` is exactly
case-insensitive (ASCII folding) substring occurrence. -/
lemma likeContains_eq_containsCI (q : Str) (hq : noWild q = true) (s : Str) :
    likeContains q s = containsCI q s := by
  unfold likeContains containsCI containsSub
  have h1 : likeMatch ('%' :: (q ++ ['%'])) s =
      s.tails.any (fun t => likeMatch (q ++ ['%']) t) := by
    simp [likeMatch]
  rw [h1, List.map_tails, List.any_map]
  simp only [Function.comp_def, likeMatch_plain_pct q hq]

lemma mem_searchResults (f : Filters) (st : List Plant) (r : Plant) :
    r ∈ searchResults f st ↔ r ∈ st ∧ matchesRow f r = true :=
  List.mem_filter

/- ### Claim C1 -/

/-- Claim C1, as stated, is false on the code: the filters are compiled to
SQLite `LIKE '%q%'`, whose default comparison folds ASCII case.  Concretely,
with the single provided filter `family = "rosaceae"`, the record with
`Family = "Rosaceae"` is returned by `search`, although `"Rosaceae"` does
not contain `"rosaceae"` as a case-sensitive substring. -/
theorem search_case_sensitivity_counterexample :
    roseRecord ∈ searchResults ⟨[], [], "rosaceae".toList, []⟩ [roseRecord] ∧
    containsSub "rosaceae".toList roseRecord.Family = false := by
  constructor
  · decide
  · decide

/-- Claim C1 (amended): for filter patterns free of the `LIKE`
metacharacters `%` and `_`, a record is in the search result iff it is
stored and, for each provided (non-blank) filter, the corresponding field
contains the pattern as a case-insensitive (ASCII folding) substring —
the plant-name filter matching either `Name_of_Plant` or
`Scientific_Name`.  Absent filters impose no constraint, provided filters
compose with logical AND, and the blank filter map returns all records. -/
theorem search_filters_conjunctive_ci (f : Filters) (st : List Plant) (r : Plant)
    (hn : noWild f.name = true) (hu : noWild f.use = true)
    (hf : noWild f.family = true) (hp : noWild f.phyto = true) :
    r ∈ searchResults f st ↔
      r ∈ st ∧
      (f.name = [] ∨ containsCI f.name r.Name_of_Plant = true ∨
        containsCI f.name r.Scientific_Name = true) ∧
      (f.use = [] ∨ containsCI f.use r.Therapeutic_Use = true) ∧
      (f.family = [] ∨ containsCI f.family r.Family = true) ∧
      (f.phyto = [] ∨ containsCI f.phyto r.Phytochemicals = true) := by
  rw [mem_searchResults]
  simp [matchesRow, likeContains_eq_containsCI f.name hn,
        likeContains_eq_containsCI f.use hu, likeContains_eq_containsCI f.family hf,
        likeContains_eq_containsCI f.phyto hp, List.isEmpty_iff, and_assoc]

/-- The amended C1 characterization, instantiated: the filter map
providing only `family = "Rosa"` keeps the sample record, whose `Family`
value `"Rosaceae"` contains `"Rosa"` case-insensitively. -/
theorem search_filters_conjunctive_ci_witness :
    roseRecord ∈ searchResults ⟨[], [], "Rosa".toList, []⟩ [roseRecord] :=
  (search_filters_conjunctive_ci ⟨[], [], "Rosa".toList, []⟩ [roseRecord] roseRecord
      (by decide) (by decide) (by decide) (by decide)).mpr
    ⟨by decide, by decide, by decide, by decide, by decide⟩

/- ### Claim C9 -/

/-- Claim C9: a filter whose pattern is the empty string is skipped by the
query builder (Python truthiness), exactly like an absent filter; a filter
map whose every pattern is empty adds no clause, so search returns all
stored records. -/
theorem search_blank_filters_return_all (f : Filters) (st : List Plant)
    (h : f.name = [] ∧ f.use = [] ∧ f.family = [] ∧ f.phyto = []) :
    searchResults f st = st := by
  obtain ⟨h1, h2, h3, h4⟩ := h
  unfold searchResults
  apply List.filter_eq_self.mpr
  intro r _
  simp [matchesRow, h1, h2, h3, h4]

/-- The blank filter map returns the whole store, at a concrete input. -/
theorem search_blank_filters_return_all_witness :
    searchResults emptyFilters [roseRecord] = [roseRecord] :=
  search_blank_filters_return_all emptyFilters [roseRecord] ⟨rfl, rfl, rfl, rfl⟩

/- ### Claim C10 -/

/-- Claim C10: the plant-name filter is matched disjunctively against the
two fields `Name_of_Plant` and `Scientific_Name` (either suffices), while
each of the other three filters constrains exactly one field
(`Therapeutic_Use`, `Family`, `Phytochemicals` respectively). -/
theorem search_name_filter_two_fields (q : Str) (st : List Plant) (r : Plant) :
    (r ∈ searchResults ⟨q, [], [], []⟩ st ↔
      r ∈ st ∧ (q = [] ∨ likeContains q r.Name_of_Plant = true ∨
        likeContains q r.Scientific_Name = true)) ∧
    (r ∈ searchResults ⟨[], q, [], []⟩ st ↔
      r ∈ st ∧ (q = [] ∨ likeContains q r.Therapeutic_Use = true)) ∧
    (r ∈ searchResults ⟨[], [], q, []⟩ st ↔
      r ∈ st ∧ (q = [] ∨ likeContains q r.Family = true)) ∧
    (r ∈ searchResults ⟨[], [], [], q⟩ st ↔
      r ∈ st ∧ (q = [] ∨ likeContains q r.Phytochemicals = true)) := by
  refine ⟨?_, ?_, ?_, ?_⟩ <;>
    (rw [mem_searchResults]; simp [matchesRow, List.isEmpty_iff])

/- ### Import length helper -/

lemma rowsToPlants_length :
    ∀ rs : List (List Str), ∀ ps : List Plant,
      rowsToPlants rs = some ps → ps.length = rs.length := by
  intro rs
  induction rs with
  | nil =>
    intro ps h
    simp [rowsToPlants] at h
    subst h
    rfl
  | cons r rs ih =>
    intro ps h
    unfold rowsToPlants at h
    cases h1 : rowToPlant r with
    | none => rw [h1] at h; simp at h
    | some p =>
      cases h2 : rowsToPlants rs with
      | none => rw [h1, h2] at h; simp at h
      | some ps' =>
        rw [h1, h2] at h
        simp at h
        subst h
        simp [ih ps' h2]

lemma importCsv_length (c : Csv) (ps : List Plant) (h : importCsv c = some ps) :
    ps.length = c.rows.length := by
  unfold importCsv at h
  split at h
  · exact rowsToPlants_length c.rows ps h
  · simp at h

/-- A sample source file whose single data row carries the sample record's
field values; its header cells are blank, which the positional rename
ignores. -/
def sampleCsv : Csv := ⟨List.replicate 11 [], [plantFields roseRecord]⟩

/- ### Claim C2 -/

/-- Claim C2: a query issued while the `plants` table has never been
created fails with the distinguishable "no such table: plants" error —
for the browse query and for every search filter map — and never yields
an `ok` result, in particular never an empty result set. -/
theorem query_before_setup_errors (f : Filters) (s : SysState) (h : s.db = none) :
    browseRun s = (s, Except.error noTableMsg) ∧
    searchRun f s = (s, Except.error noTableMsg) ∧
    (∀ out, browseRun s ≠ (s, Except.ok out)) ∧
    (∀ res, searchRun f s ≠ (s, Except.ok res)) := by
  refine ⟨?_, ?_, ?_, ?_⟩ <;> simp [browseRun, searchRun, h]

/-- The uninitialized state at a concrete input: browsing errors. -/
theorem query_before_setup_errors_witness :
    browseRun ⟨none, none, false⟩ =
      (⟨none, none, false⟩, Except.error noTableMsg) :=
  (query_before_setup_errors emptyFilters ⟨none, none, false⟩ rfl).1

/- ### Claim C3 -/

/-- Claim C3: re-running the import is safe.  The `setup_database` variant
(skip-if-exists) is a strict no-op when the store is populated; the
`create_database` variant (`if_exists='replace'`) always leaves exactly
the imported rows, so running it twice gives the same store as once, with
exactly as many records as the source has rows — never duplicates. -/
theorem reimport_never_duplicates (s : SysState) (st ps : List Plant)
    (c : Csv) (db : Option (List Plant))
    (hdb : s.db = some st) (himp : importCsv c = some ps) :
    setup_database s = s ∧
    create_database (some c) db = some ps ∧
    create_database (some c) (create_database (some c) db) = some ps ∧
    ps.length = c.rows.length := by
  refine ⟨?_, ?_, ?_, importCsv_length c ps himp⟩
  · simp [setup_database, hdb]
  · simp [create_database, himp]
  · simp [create_database, himp]

/-- Replace-variant idempotence at a concrete input: importing the sample
file twice over a populated store yields exactly its one record. -/
theorem reimport_never_duplicates_witness :
    create_database (some sampleCsv)
        (create_database (some sampleCsv) (some [])) = some [roseRecord] :=
  (reimport_never_duplicates ⟨none, some [roseRecord], false⟩ [roseRecord]
      [roseRecord] sampleCsv (some []) rfl (by decide)).2.2.1

/- ### Claim C6 -/

/-- Claim C6: the browse page's per-family selection uses exact
whole-string equality on `Family`: a record is selected iff it is stored
and its `Family` equals the value; in particular a record whose `Family`
merely contains the value as a proper substring is not selected. -/
theorem findByExactFamily_spec (v : Str) (st : List Plant) (r : Plant) :
    (r ∈ findByExactFamily v st ↔ r ∈ st ∧ r.Family = v) ∧
    (containsSub v r.Family = true → r.Family ≠ v →
      r ∉ findByExactFamily v st) := by
  have h1 : r ∈ findByExactFamily v st ↔ r ∈ st ∧ r.Family = v := by
    unfold findByExactFamily
    simp [List.mem_filter]
  refine ⟨h1, ?_⟩
  intro _ hne hmem
  exact hne (h1.mp hmem).2

/-- Exact-family selection at a concrete input. -/
theorem findByExactFamily_spec_witness :
    roseRecord ∈ findByExactFamily ("Rosaceae".toList) [roseRecord] :=
  (findByExactFamily_spec ("Rosaceae".toList) [roseRecord] roseRecord).1.mpr
    ⟨by decide, by decide⟩

/- ### Claim C7 -/

/-- Claim C7: with no store and a missing source file, `setup_database`
reports the error and halts (`st.stop()`) without creating the store, and
`create_database` returns leaving the store exactly as it was; neither
retries. -/
theorem missing_csv_halts_without_import (s : SysState)
    (hdb : s.db = none) (hcsv : s.csv = none) :
    setup_database s = { s with halted := true } ∧
    (setup_database s).db = none ∧
    (∀ db, create_database none db = db) := by
  refine ⟨?_, ?_, fun db => rfl⟩
  · simp [setup_database, hdb, hcsv]
  · simp [setup_database, hdb, hcsv]

/-- Missing source file at a concrete input: the flow halts, no store. -/
theorem missing_csv_halts_without_import_witness :
    setup_database ⟨none, none, false⟩ = ⟨none, none, true⟩ :=
  (missing_csv_halts_without_import ⟨none, none, false⟩ rfl rfl).1

/- ### Claim C8 -/

/-- Claim C8: the query operations are read-only.  `browseRun` (which
computes the distinct families) and `searchRun` (for every filter map)
return the process state — in particular the store — unchanged;
`listDistinctFamilies` and `findByExactFamily` are pure functions of the
contents and cannot mutate them. -/
theorem queries_leave_store_unchanged (f : Filters) (s : SysState) :
    (browseRun s).1 = s ∧ (searchRun f s).1 = s := by
  rcases s with ⟨csv, db, halted⟩
  cases db <;> simp [browseRun, searchRun]

/-- Read-only queries at a concrete input. -/
theorem queries_leave_store_unchanged_witness :
    (browseRun ⟨none, some [roseRecord], false⟩).1 =
      ⟨none, some [roseRecord], false⟩ :=
  (queries_leave_store_unchanged emptyFilters ⟨none, some [roseRecord], false⟩).1

/- ### Claim C4 -/

lemma rowToPlant_length_eq (r : List Str) (h : r.length = 11) :
    ∃ p, rowToPlant r = some p ∧ plantFields p = r := by
  rcases r with _ | ⟨a, _ | ⟨b, _ | ⟨c, _ | ⟨d, _ | ⟨e, _ | ⟨f, _ | ⟨g, _ | ⟨h1,
    _ | ⟨i, _ | ⟨j, _ | ⟨k, _ | ⟨l, r⟩⟩⟩⟩⟩⟩⟩⟩⟩⟩⟩⟩
  all_goals simp at h
  exact ⟨⟨a, b, c, d, e, f, g, h1, i, j, k⟩, rfl, rfl⟩

lemma rowsToPlants_wellFormed :
    ∀ rs : List (List Str), (∀ r ∈ rs, r.length = 11) →
      ∃ ps, rowsToPlants rs = some ps ∧ ps.map plantFields = rs := by
  intro rs
  induction rs with
  | nil => intro _; exact ⟨[], rfl, rfl⟩
  | cons r rs ih =>
    intro h
    obtain ⟨p, hp, hfields⟩ := rowToPlant_length_eq r (h r (by simp))
    obtain ⟨ps, hps, hmap⟩ := ih (fun r' hr' => h r' (by simp [hr']))
    refine ⟨p :: ps, ?_, ?_⟩
    · unfold rowsToPlants
      rw [hp, hps]
    · simp [hmap, hfields]

/-- Claim C4: importing a well-formed source file (11 header cells, every
data row 11 cells) yields exactly one stored record per source row, whose
eleven field values are the row's cells in order — the schema names are
assigned positionally, so the outcome is the same for any 11-cell header,
whatever its names. -/
theorem import_positional_faithful (c : Csv)
    (hhead : c.header.length = 11) (hrows : ∀ r ∈ c.rows, r.length = 11) :
    ∃ ps, importCsv c = some ps ∧
      ps.length = c.rows.length ∧
      ps.map plantFields = c.rows ∧
      (∀ h' : List Str, h'.length = 11 → importCsv ⟨h', c.rows⟩ = importCsv c) := by
  obtain ⟨ps, hps, hmap⟩ := rowsToPlants_wellFormed c.rows hrows
  refine ⟨ps, ?_, ?_, hmap, ?_⟩
  · simp [importCsv, hhead, hps]
  · rw [← hmap]
    simp
  · intro h' hh'
    simp [importCsv, hhead, hh']

/-- The import characterization at a concrete one-row source file. -/
theorem import_positional_faithful_witness :
    ∃ ps, importCsv sampleCsv = some ps ∧
      ps.length = sampleCsv.rows.length ∧
      ps.map plantFields = sampleCsv.rows ∧
      (∀ h' : List Str, h'.length = 11 →
        importCsv ⟨h', sampleCsv.rows⟩ = importCsv sampleCsv) :=
  import_positional_faithful sampleCsv (by decide) (by decide)

/- ### Claim C5 -/

/-- Claim C5: `SELECT DISTINCT Family FROM plants ORDER BY Family` lists
each `Family` value occurring in the store exactly once (no duplicates,
no other values) in strictly ascending lexicographic order. -/
theorem listDistinctFamilies_spec (st : List Plant) :
    (listDistinctFamilies st).Nodup ∧
    List.Sorted (· < ·) (listDistinctFamilies st) ∧
    (∀ v, v ∈ listDistinctFamilies st ↔ v ∈ st.map Plant.Family) := by
  unfold listDistinctFamilies
  have hperm : List.Perm (((st.map Plant.Family).dedup).insertionSort (· ≤ ·))
      ((st.map Plant.Family).dedup) := List.perm_insertionSort _ _
  have hnd : (((st.map Plant.Family).dedup).insertionSort (· ≤ ·)).Nodup :=
    hperm.nodup_iff.mpr (List.nodup_dedup _)
  have hsorted : List.Sorted (· ≤ ·)
      (((st.map Plant.Family).dedup).insertionSort (· ≤ ·)) :=
    List.sorted_insertionSort _ _
  refine ⟨hnd, ?_, ?_⟩
  · exact (List.Pairwise.and hsorted hnd).imp (fun h => lt_of_le_of_ne h.1 h.2)
  · intro v
    rw [hperm.mem_iff, List.mem_dedup]

/-- Distinct families at a concrete input. -/
theorem listDistinctFamilies_spec_witness :
    "Rosaceae".toList ∈ listDistinctFamilies [roseRecord] :=
  ((listDistinctFamilies_spec [roseRecord]).2.2 ("Rosaceae".toList)).mpr (by decide)

/-- The plant-name filter matched via the scientific name only, at a
concrete input. -/
theorem search_name_filter_two_fields_witness :
    roseRecord ∈ searchResults ⟨"rosa".toList, [], [], []⟩ [roseRecord] :=
  ((search_name_filter_two_fields ("rosa".toList) [roseRecord] roseRecord).1).mpr
    ⟨by decide, by decide⟩
